import Mathlib

/-
Shallow embedding of the Position-Based Fluids simulator host code
(Simulation.cpp, Simulation.h, AABB.h).

Modelling conventions:
- `float` scalars are embedded as exact rationals; decimal literals of the
  source (0.25f, 0.66, 0.33, ...) become the corresponding rationals.
- the unsigned int frame counters are embedded as naturals whose every
  increment is taken modulo 2^32, matching the wraparound of the source's
  32-bit unsigned counters.
- `sin` and the float constant M_PI have no exact rational counterpart, so
  the functions that use them take the sine function and the value of pi as
  explicit parameters; none of the proved properties depends on their values
  beyond what is assumed in a theorem's hypotheses.
- `ofRandom(lo, hi)` draws a float uniformly from [lo, hi); it is embedded
  as `lo + sample * (hi - lo)` for a caller-supplied stream of unit samples,
  one per call site, three per particle.
- the GPU kernels dispatched by `Simulation::step` mutate device buffers
  whose numerical semantics none of the verified claims depends on; the
  dispatch ORDER is embedded as a trace of kernel operations (`KernelOp`
  below), and the effect of the kernel passes on the particle buffer is an
  abstract parameter of `Simulation.step`.
-/

namespace PBF

/-- Embedding of ofVec3f: a 3-component vector of (rational-valued) floats. -/
structure Vec3 where
  x : ℚ
  y : ℚ
  z : ℚ
deriving DecidableEq

/-- The zero vector. -/
def Vec3.zero : Vec3 := ⟨0, 0, 0⟩

/-- Embedding of AABB (AABB.h): an axis-aligned box with min and max corners
(fields minV, maxV as in the source). -/
structure AABB where
  minV : Vec3
  maxV : Vec3
deriving DecidableEq

/-- Embedding of the Particle struct (Simulation.h): current position,
predicted position, velocity. -/
structure Particle where
  pos : Vec3
  posStar : Vec3
  vel : Vec3
deriving DecidableEq

/-- Embedding of Simulation::AnimationType (Simulation.h). -/
inductive AnimationType where
  | SINE_WAVE
  | LINEAR_RAMP
  | COMPRESS
deriving DecidableEq

/-- The slice of the Parameters struct the embedded host code reads:
only particleRadius is consulted by Simulation.cpp itself. -/
structure Parameters where
  particleRadius : ℚ
deriving DecidableEq

/-- Modulus of the C++ unsigned int counters: increments of frameNumber and
animFrameNumber wrap at 2^32. -/
def uintSize : ℕ := 2 ^ 32

/-- Embedding of the host-side state of the Simulation class (Simulation.h):
the frame counters, bounds, grid configuration, parameters and the particle
buffer. frameNumber and animFrameNumber are the source's unsigned int
counters: they are stored as naturals and every increment the code performs
on them is taken modulo 2^32 (uintSize). GPU-only buffers (density, lambda,
curl, posDelta, histograms) carry no host-visible state consulted by the
verified claims and are not listed. -/
structure Simulation where
  frameNumber : ℕ
  numCells : ℤ
  animBounds : Bool
  animFrameNumber : ℕ
  animType : AnimationType
  animPeriod : ℚ
  animAmp : ℚ
  animBothSides : Bool
  originalBounds : AABB
  bounds : AABB
  dt : ℚ
  cellsPerAxis : Vec3
  numParticles : ℤ
  parameters : Parameters
  particles : List Particle
deriving DecidableEq

/-- Embedding of static_cast from float to int: truncation toward zero. -/
def trunc (q : ℚ) : ℤ := if 0 ≤ q then ⌊q⌋ else ⌈q⌉

/-- Embedding of ofRandom(lo, hi) at one call site, fed a unit sample:
the drawn value lo + sample * (hi - lo). -/
def ofRandom (sample lo hi : ℚ) : ℚ := lo + sample * (hi - lo)

/-- The i-th particle produced by the initialization loop of
Simulation::initializeBuffers (Simulation.cpp lines 265-280): positions
drawn by ofRandom with the x range [p1.x + radius, p2.x - radius), the
y range [p1.y + radius, 0.25 * (p2.y - radius)), the z range
[p1.z + radius, p2.z - radius); predicted position and velocity zeroed. -/
def initParticle (rand : ℕ → ℚ) (p1 p2 : Vec3) (radius : ℚ) (i : ℕ) : Particle :=
  { pos := { x := ofRandom (rand (3 * i)) (p1.x + radius) (p2.x - radius)
           , y := ofRandom (rand (3 * i + 1)) (p1.y + radius) ((1/4) * (p2.y - radius))
           , z := ofRandom (rand (3 * i + 2)) (p1.z + radius) (p2.z - radius) }
  , posStar := Vec3.zero
  , vel := Vec3.zero }

/-- A particle as the spec's words describe initialization (section 6,
"randomizes initial positions within bounds (uniform random per axis,
independent)", each axis's admissible range spanning the bounds on that
axis): every axis, including y, uses the full admissible range
[min + radius, max - radius). Stated only to be compared against
`initParticle`, which embeds the source. -/
def specInitParticle (rand : ℕ → ℚ) (p1 p2 : Vec3) (radius : ℚ) (i : ℕ) : Particle :=
  { pos := { x := ofRandom (rand (3 * i)) (p1.x + radius) (p2.x - radius)
           , y := ofRandom (rand (3 * i + 1)) (p1.y + radius) (p2.y - radius)
           , z := ofRandom (rand (3 * i + 2)) (p1.z + radius) (p2.z - radius) }
  , posStar := Vec3.zero
  , vel := Vec3.zero }

/-- Embedding of Simulation::initializeBuffers (Simulation.cpp lines
181-281): recomputes numCells as the product of the truncated per-axis cell
counts and refills the particle buffer from the current bounds; radius,
particle count, cellsPerAxis and both bounds are read, not written. -/
def Simulation.initializeBuffers (rand : ℕ → ℚ) (s : Simulation) : Simulation :=
  let p1 := s.bounds.minV
  let p2 := s.bounds.maxV
  { s with
    numCells := trunc s.cellsPerAxis.x * trunc s.cellsPerAxis.y * trunc s.cellsPerAxis.z
  , particles := (List.range s.numParticles.toNat).map
      (initParticle rand p1 p2 s.parameters.particleRadius) }

/-- Embedding of Simulation::resetBounds (Simulation.cpp lines 588-592):
zero the animation frame counter and restore the construction-time bounds. -/
def Simulation.resetBounds (s : Simulation) : Simulation :=
  { s with animFrameNumber := 0, bounds := s.originalBounds }

/-- Embedding of Simulation::reset (Simulation.cpp lines 597-604):
frameNumber := 0, then initializeBuffers, then setupKernels(false) (no
host-state effect), then resetBounds, then writeToGPU (no host-state
effect). -/
def Simulation.reset (rand : ℕ → ℚ) (s : Simulation) : Simulation :=
  (Simulation.initializeBuffers rand { s with frameNumber := 0 }).resetBounds

/-- Embedding of Simulation::setBounds (Simulation.h line 315): overwrite
only the mutable bounds field. -/
def Simulation.setBounds (s : Simulation) (b : AABB) : Simulation :=
  { s with bounds := b }

/-- Embedding of ofDegToRad: degrees times pi / 180. -/
def ofDegToRad (pi degrees : ℚ) : ℚ := degrees * (pi / 180)

/-- The value computed by the LINEAR_RAMP branch of
Simulation::stepBoundsAnimation as a function of the amplitude and of
tPeriod: 2 * amp * (u - floor(0.5 + u)). This is a sawtooth in u with
period 1. -/
def sawtoothOf (amp u : ℚ) : ℚ := 2 * amp * (u - ((⌊(1/2 : ℚ) + u⌋ : ℤ) : ℚ))

/-- Embedding of Simulation::stepBoundsAnimation (Simulation.cpp lines
609-656). sinFn and pi stand for the float sin function and M_PI. -/
def Simulation.stepBoundsAnimation (sinFn : ℚ → ℚ) (pi : ℚ) (s : Simulation) : Simulation :=
  let origMinX := s.originalBounds.minV.x
  let origMaxX := s.originalBounds.maxV.x
  let width := origMaxX - origMinX
  let limit := width * (33/50)
  let halfLimit := limit * (1/2)
  let limitMinX := origMinX + halfLimit
  let limitMaxX := origMaxX - halfLimit
  let s' : Simulation :=
    match s.animType with
    | AnimationType.SINE_WAVE =>
      let theta := ofDegToRad pi ((s.animFrameNumber % 720 : ℕ) : ℚ)
      let value := s.animAmp * sinFn (s.animPeriod * pi * theta)
      let b1 := { s.bounds with maxV := { s.bounds.maxV with x := origMaxX - value } }
      let b2 := if s.animBothSides = true then
                  { b1 with minV := { b1.minV with x := origMinX + value } }
                else b1
      { s with bounds := b2 }
    | AnimationType.LINEAR_RAMP =>
      let t : ℚ := (s.animFrameNumber : ℚ)
      let tPeriod := (t / s.animPeriod) * s.dt
      let value := 2 * s.animAmp * (tPeriod - ((⌊(1/2 : ℚ) + tPeriod⌋ : ℤ) : ℚ))
      let b1 := { s.bounds with maxV := { s.bounds.maxV with x := origMaxX - value } }
      let b2 := if s.animBothSides = true then
                  { b1 with minV := { b1.minV with x := origMinX + value } }
                else b1
      { s with bounds := b2 }
    | AnimationType.COMPRESS =>
      let b1 := if limitMaxX ≤ s.bounds.maxV.x then
                  { s.bounds with maxV := { s.bounds.maxV with x := s.bounds.maxV.x - 1/4 } }
                else s.bounds
      let b2 := if s.animBothSides = true ∧ b1.minV.x ≤ limitMinX then
                  { b1 with minV := { b1.minV with x := b1.minV.x + 1/4 } }
                else b1
      { s with bounds := b2 }
  { s' with animFrameNumber := (s.animFrameNumber + 1) % uintSize }

/-- The offset the bounds animation applies to the max X-bound: the
construction-time max X minus the max X produced by one call to
stepBoundsAnimation. -/
def maxXOffset (sinFn : ℚ → ℚ) (pi : ℚ) (s : Simulation) : ℚ :=
  s.originalBounds.maxV.x - (s.stepBoundsAnimation sinFn pi).bounds.maxV.x

/-- Embedding of Simulation::step (Simulation.cpp lines 666-735) at the
host-state level: the kernel passes act on the particle buffer (gpu stands
for their combined numerical effect, which no claim here consults), then
the bounds animation runs when animBounds is set, then frameNumber is
bumped. The kernel dispatch ORDER inside step is embedded separately as
`stepOps`. -/
def Simulation.step (gpu : List Particle → List Particle) (sinFn : ℚ → ℚ) (pi : ℚ)
    (s : Simulation) : Simulation :=
  let s0 := { s with particles := gpu s.particles }
  let s1 := if s0.animBounds = true then s0.stepBoundsAnimation sinFn pi else s0
  { s1 with frameNumber := (s1.frameNumber + 1) % uintSize }

/-- One kernel dispatch (or prefix-sum scan) issued by Simulation::step and
the helper methods it calls. -/
inductive KernelOp where
  | resetParticleQuantities
  | resetCellQuantities
  | predictPosition
  | discretizeParticlePositions
  | scan
  | countSortParticlesByCell
  | findParticleBins
  | estimateDensity
  | computeLambda
  | computePositionDelta
  | updatePositionDelta
  | computeCurl
  | updatePosition
deriving DecidableEq

/-- Kernel trace of Simulation::resetQuantities (Simulation.cpp 894-898). -/
def resetQuantitiesOps : List KernelOp :=
  [KernelOp.resetParticleQuantities, KernelOp.resetCellQuantities]

/-- Kernel trace of Simulation::predictPositions (Simulation.cpp 905-908). -/
def predictPositionsOps : List KernelOp := [KernelOp.predictPosition]

/-- Kernel trace of Simulation::discretizeParticlePositions
(Simulation.cpp 918-923). -/
def discretizeParticlePositionsOps : List KernelOp :=
  [KernelOp.discretizeParticlePositions]

/-- Kernel trace of Simulation::sortParticlesByCell (Simulation.cpp
934-953): the prefix-sum scan of the cell histogram, the counting-sort
scatter, then the per-cell (start, length) table. -/
def sortParticlesByCellOps : List KernelOp :=
  [KernelOp.scan, KernelOp.countSortParticlesByCell, KernelOp.findParticleBins]

/-- Kernel trace of Simulation::findNeighboringParticles (Simulation.cpp
883-887): discretize, then counting-sort by cell. -/
def findNeighboringParticlesOps : List KernelOp :=
  discretizeParticlePositionsOps ++ sortParticlesByCellOps

/-- Kernel trace of Simulation::calculateDensity (Simulation.cpp 962-967). -/
def calculateDensityOps : List KernelOp := [KernelOp.estimateDensity]

/-- Kernel trace of Simulation::calculatePositionDelta (Simulation.cpp
976-985): computeLambda then computePositionDelta. -/
def calculatePositionDeltaOps : List KernelOp :=
  [KernelOp.computeLambda, KernelOp.computePositionDelta]

/-- Kernel trace of Simulation::updatePositionDelta (Simulation.cpp
992-995). -/
def updatePositionDeltaOps : List KernelOp := [KernelOp.updatePositionDelta]

/-- Kernel trace of Simulation::updatePosition (Simulation.cpp 1016-1025):
computeCurl then the updatePosition kernel. -/
def updatePositionOps : List KernelOp :=
  [KernelOp.computeCurl, KernelOp.updatePosition]

/-- Kernel trace of the solver for-loop in Simulation::step (Simulation.cpp
692-701) after n iterations: each iteration dispatches calculateDensity,
calculatePositionDelta (handleCollisions is commented out), then
updatePositionDelta. -/
def solverLoopOps : ℕ → List KernelOp
  | 0 => []
  | n + 1 => solverLoopOps n ++
      (calculateDensityOps ++ calculatePositionDeltaOps ++ updatePositionDeltaOps)

/-- Kernel trace of one call to Simulation::step (Simulation.cpp 666-735)
with N = Constants::SOLVER_ITERATIONS solver iterations: resetQuantities,
predictPositions, findNeighboringParticles, the solver loop, then
updatePosition. -/
def stepOps (N : ℕ) : List KernelOp :=
  resetQuantitiesOps ++ predictPositionsOps ++ findNeighboringParticlesOps ++
    solverLoopOps N ++ updatePositionOps

/-- The kernel dispatches of one solver iteration, as the spec lists them:
EstimateDensity, ComputeLambda, ComputePositionDelta, ApplyPositionDelta. -/
def solverIterationSpec : List KernelOp :=
  [KernelOp.estimateDensity, KernelOp.computeLambda,
   KernelOp.computePositionDelta, KernelOp.updatePositionDelta]

/-- Helper: the solver for-loop trace is n copies of the per-iteration
kernel sequence. -/
theorem solverLoopOps_eq (n : ℕ) :
    solverLoopOps n = (List.replicate n solverIterationSpec).flatten := by
  induction n with
  | zero => rfl
  | succ k ih =>
      rw [List.replicate_succ', List.flatten_append, ← ih]
      rfl

/-- Helper: stepBoundsAnimation writes only the bounds and the animation
frame counter; every other field of the simulation state is preserved. -/
theorem stepBoundsAnimation_preserves (sinFn : ℚ → ℚ) (pi : ℚ) (s : Simulation) :
    (s.stepBoundsAnimation sinFn pi).frameNumber = s.frameNumber ∧
    (s.stepBoundsAnimation sinFn pi).animType = s.animType ∧
    (s.stepBoundsAnimation sinFn pi).animBothSides = s.animBothSides ∧
    (s.stepBoundsAnimation sinFn pi).originalBounds = s.originalBounds ∧
    (s.stepBoundsAnimation sinFn pi).animFrameNumber =
      (s.animFrameNumber + 1) % uintSize := by
  unfold Simulation.stepBoundsAnimation
  cases s.animType <;> simp

/-- Claim C1: every call to Simulation::step dispatches, in order: the
scratch resets (resetParticleQuantities, resetCellQuantities), the position
prediction, the spatial grid build (discretize, then the counting sort:
scan, scatter, per-cell bins), then exactly N solver iterations each
consisting of estimateDensity, computeLambda, computePositionDelta,
updatePositionDelta, followed by the curl computation and the final
position update. -/
theorem step_kernel_order (N : ℕ) :
    stepOps N =
      [KernelOp.resetParticleQuantities, KernelOp.resetCellQuantities,
       KernelOp.predictPosition,
       KernelOp.discretizeParticlePositions, KernelOp.scan,
       KernelOp.countSortParticlesByCell, KernelOp.findParticleBins] ++
      (List.replicate N
        [KernelOp.estimateDensity, KernelOp.computeLambda,
         KernelOp.computePositionDelta, KernelOp.updatePositionDelta]).flatten ++
      [KernelOp.computeCurl, KernelOp.updatePosition] := by
  rw [stepOps, solverLoopOps_eq]
  rfl

/-- A state whose frame counter sits at UINT_MAX = 2^32 - 1, where the
unsigned increment in step() wraps to 0. -/
def wrapDemo : Simulation :=
  { frameNumber := 2 ^ 32 - 1, numCells := 8, animBounds := false,
    animFrameNumber := 0,
    animType := AnimationType.SINE_WAVE, animPeriod := 1, animAmp := 10,
    animBothSides := false,
    originalBounds := { minV := ⟨0, 0, 0⟩, maxV := ⟨10, 10, 10⟩ },
    bounds := { minV := ⟨0, 0, 0⟩, maxV := ⟨10, 10, 10⟩ },
    dt := 1/30, cellsPerAxis := ⟨2, 2, 2⟩, numParticles := 0,
    parameters := { particleRadius := 1 }, particles := [] }

/-- Claim C2 counterexample: frameNumber is an unsigned int, so at the
state whose counter holds UINT_MAX one call to step() wraps it to 0, which
is not the old value plus 1. -/
theorem step_wrap_counterexample :
    (wrapDemo.step id (fun q => q) 0).frameNumber = 0 ∧
    wrapDemo.frameNumber + 1 ≠ 0 := by
  constructor
  · simp only [Simulation.step, wrapDemo, uintSize]
    norm_num
  · simp only [wrapDemo]
    norm_num

/-- Claim C2 (amended): one call to Simulation::step sets frameNumber to
(old + 1) mod 2^32 — the unsigned-int increment — and therefore increments
it by exactly one whenever the counter has not yet reached UINT_MAX;
whatever state the simulation is in, whatever the kernels do to the
particle buffer, and whether or not the bounds animation runs. -/
theorem step_increments_frameNumber_mod (gpu : List Particle → List Particle)
    (sinFn : ℚ → ℚ) (pi : ℚ) (s : Simulation)
    (h : s.frameNumber + 1 < uintSize) :
    (s.step gpu sinFn pi).frameNumber = (s.frameNumber + 1) % uintSize ∧
    (s.step gpu sinFn pi).frameNumber = s.frameNumber + 1 := by
  have hmod : (s.step gpu sinFn pi).frameNumber = (s.frameNumber + 1) % uintSize := by
    unfold Simulation.step
    by_cases hb : s.animBounds = true <;>
      simp [hb, (stepBoundsAnimation_preserves sinFn pi _).1]
  exact ⟨hmod, by rw [hmod, Nat.mod_eq_of_lt h]⟩

/-- Witness for the amended step/frameNumber claim at a concrete state
whose counter is far below the wrap. -/
theorem step_increments_frameNumber_mod_witness :
    { wrapDemo with frameNumber := 5 }.frameNumber + 1 < uintSize ∧
    (({ wrapDemo with frameNumber := 5 }.step id (fun q => q) 0).frameNumber =
        ({ wrapDemo with frameNumber := 5 }.frameNumber + 1) % uintSize ∧
     ({ wrapDemo with frameNumber := 5 }.step id (fun q => q) 0).frameNumber =
        { wrapDemo with frameNumber := 5 }.frameNumber + 1) :=
  ⟨by norm_num [uintSize],
   step_increments_frameNumber_mod id (fun q => q) 0 _ (by norm_num [uintSize])⟩

/-- A state whose animation frame counter sits at UINT_MAX = 2^32 - 1,
where the unsigned increment in stepBoundsAnimation wraps to 0. -/
def animWrapDemo : Simulation :=
  { frameNumber := 0, numCells := 8, animBounds := true,
    animFrameNumber := 2 ^ 32 - 1,
    animType := AnimationType.COMPRESS, animPeriod := 1, animAmp := 10,
    animBothSides := false,
    originalBounds := { minV := ⟨0, 0, 0⟩, maxV := ⟨10, 10, 10⟩ },
    bounds := { minV := ⟨0, 0, 0⟩, maxV := ⟨10, 10, 10⟩ },
    dt := 1/30, cellsPerAxis := ⟨2, 2, 2⟩, numParticles := 0,
    parameters := { particleRadius := 1 }, particles := [] }

/-- Claim C9 counterexample: animFrameNumber is an unsigned int, so at the
state whose counter holds UINT_MAX one call to stepBoundsAnimation wraps it
to 0: it is neither incremented by exactly one nor strictly increased. -/
theorem animFrame_wrap_counterexample :
    (animWrapDemo.stepBoundsAnimation (fun q => q) 0).animFrameNumber = 0 ∧
    animWrapDemo.animFrameNumber + 1 ≠ 0 ∧
    ¬ animWrapDemo.animFrameNumber <
        (animWrapDemo.stepBoundsAnimation (fun q => q) 0).animFrameNumber := by
  have h0 : (animWrapDemo.stepBoundsAnimation (fun q => q) 0).animFrameNumber = 0 := by
    rw [(stepBoundsAnimation_preserves (fun q => q) 0 animWrapDemo).2.2.2.2]
    simp only [animWrapDemo, uintSize]
    norm_num
  refine ⟨h0, by simp only [animWrapDemo]; norm_num, ?_⟩
  rw [h0]
  exact Nat.not_lt_zero _

/-- Claim C9 (amended): the animation frame counter is set to 0 by every
call to resetBounds (and hence by reset), and every call to
stepBoundsAnimation sets it to (old + 1) mod 2^32 — the unsigned-int
increment — so it increments by exactly one, and is strictly increasing
outside explicit resets, as long as the counter has not yet reached
UINT_MAX. -/
theorem animFrameNumber_reset_and_increment_mod (s : Simulation) (rand : ℕ → ℚ)
    (sinFn : ℚ → ℚ) (pi : ℚ) (h : s.animFrameNumber + 1 < uintSize) :
    s.resetBounds.animFrameNumber = 0 ∧
    (s.reset rand).animFrameNumber = 0 ∧
    (s.stepBoundsAnimation sinFn pi).animFrameNumber =
      (s.animFrameNumber + 1) % uintSize ∧
    (s.stepBoundsAnimation sinFn pi).animFrameNumber = s.animFrameNumber + 1 := by
  have hmod := (stepBoundsAnimation_preserves sinFn pi s).2.2.2.2
  exact ⟨rfl, rfl, hmod, by rw [hmod, Nat.mod_eq_of_lt h]⟩

/-- Witness for the amended animation-counter claim at a concrete state
whose counter is far below the wrap. -/
theorem animFrameNumber_reset_and_increment_mod_witness :
    { animWrapDemo with animFrameNumber := 3 }.animFrameNumber + 1 < uintSize ∧
    ({ animWrapDemo with animFrameNumber := 3 }.resetBounds.animFrameNumber = 0 ∧
     ({ animWrapDemo with animFrameNumber := 3 }.reset fun _ => 0).animFrameNumber = 0 ∧
     ({ animWrapDemo with animFrameNumber := 3 }.stepBoundsAnimation (fun q => q) 0).animFrameNumber =
       ({ animWrapDemo with animFrameNumber := 3 }.animFrameNumber + 1) % uintSize ∧
     ({ animWrapDemo with animFrameNumber := 3 }.stepBoundsAnimation (fun q => q) 0).animFrameNumber =
       { animWrapDemo with animFrameNumber := 3 }.animFrameNumber + 1) :=
  ⟨by norm_num [uintSize],
   animFrameNumber_reset_and_increment_mod _ (fun _ => 0) (fun q => q) 0
     (by norm_num [uintSize])⟩

/-- Claim C10: setBounds overwrites only the mutable bounds (restoring the
old bounds value gives back the very same state), never the
construction-time originalBounds; hence a later resetBounds or reset
discards the installed bounds and restores the construction-time ones. -/
theorem setBounds_only_mutable_bounds (s : Simulation) (b : AABB) (rand : ℕ → ℚ) :
    (s.setBounds b).originalBounds = s.originalBounds ∧
    { s.setBounds b with bounds := s.bounds } = s ∧
    ((s.setBounds b).resetBounds).bounds = s.originalBounds ∧
    ((s.setBounds b).reset rand).bounds = s.originalBounds := by
  exact ⟨rfl, rfl, rfl, rfl⟩

/-- A concrete simulation state used to witness the reset claim. -/
def resetDemo : Simulation :=
  { frameNumber := 5, numCells := 8, animBounds := false, animFrameNumber := 3,
    animType := AnimationType.SINE_WAVE, animPeriod := 1, animAmp := 10,
    animBothSides := false,
    originalBounds := { minV := ⟨0, 0, 0⟩, maxV := ⟨20, 20, 20⟩ },
    bounds := { minV := ⟨0, 0, 0⟩, maxV := ⟨10, 10, 10⟩ },
    dt := 1/30, cellsPerAxis := ⟨2, 2, 2⟩, numParticles := 1,
    parameters := { particleRadius := 1 }, particles := [] }

/-- Claim C3: after reset the current bounds equal the construction-time
bounds, and the particle count, the per-axis grid resolution and the total
cell count are all unchanged. The hypothesis records the invariant that
numCells already holds the product of the truncated per-axis counts, which
is how the class computes it on every (re)initialization. -/
theorem reset_restores_bounds_preserves_grid (rand : ℕ → ℚ) (s : Simulation)
    (h : s.numCells =
      trunc s.cellsPerAxis.x * trunc s.cellsPerAxis.y * trunc s.cellsPerAxis.z) :
    (s.reset rand).bounds = s.originalBounds ∧
    (s.reset rand).numParticles = s.numParticles ∧
    (s.reset rand).cellsPerAxis = s.cellsPerAxis ∧
    (s.reset rand).numCells = s.numCells := by
  refine ⟨rfl, rfl, rfl, ?_⟩
  simp [Simulation.reset, Simulation.initializeBuffers, Simulation.resetBounds, h]

/-- Witness for the reset claim at a concrete state. -/
theorem reset_restores_bounds_preserves_grid_witness :
    resetDemo.numCells =
      trunc resetDemo.cellsPerAxis.x * trunc resetDemo.cellsPerAxis.y *
        trunc resetDemo.cellsPerAxis.z ∧
    ((resetDemo.reset fun _ => 0).bounds = resetDemo.originalBounds ∧
     (resetDemo.reset fun _ => 0).numParticles = resetDemo.numParticles ∧
     (resetDemo.reset fun _ => 0).cellsPerAxis = resetDemo.cellsPerAxis ∧
     (resetDemo.reset fun _ => 0).numCells = resetDemo.numCells) :=
  ⟨by decide, reset_restores_bounds_preserves_grid (fun _ => 0) resetDemo (by decide)⟩

/-- Claim C8: whichever animation type is selected, stepBoundsAnimation
modifies at most the X components of the bounds' min and max extents; the
Y and Z components of both extents are unchanged. -/
theorem stepBoundsAnimation_only_x (sinFn : ℚ → ℚ) (pi : ℚ) (s : Simulation) :
    (s.stepBoundsAnimation sinFn pi).bounds.minV.y = s.bounds.minV.y ∧
    (s.stepBoundsAnimation sinFn pi).bounds.minV.z = s.bounds.minV.z ∧
    (s.stepBoundsAnimation sinFn pi).bounds.maxV.y = s.bounds.maxV.y ∧
    (s.stepBoundsAnimation sinFn pi).bounds.maxV.z = s.bounds.maxV.z := by
  unfold Simulation.stepBoundsAnimation
  cases s.animType <;> simp <;> split_ifs <;> simp

/-- A concrete SINE_WAVE state used to witness the sine-wave claim. -/
def sineDemo : Simulation :=
  { frameNumber := 0, numCells := 8, animBounds := true, animFrameNumber := 0,
    animType := AnimationType.SINE_WAVE, animPeriod := 1, animAmp := 10,
    animBothSides := false,
    originalBounds := { minV := ⟨0, 0, 0⟩, maxV := ⟨100, 100, 100⟩ },
    bounds := { minV := ⟨0, 0, 0⟩, maxV := ⟨100, 100, 100⟩ },
    dt := 1/30, cellsPerAxis := ⟨2, 2, 2⟩, numParticles := 0,
    parameters := { particleRadius := 1 }, particles := [] }

/-- Claim C7: under SINE_WAVE with amplitude 10 and period 1, the offset
applied to the max X-bound at animation frame 0 is amplitude * sin(0) = 0,
and the offset at frame f + 720 equals the offset at frame f for every f,
because the wave is computed from the frame count modulo 720 degrees. The
sine function is abstract; only sin 0 = 0 is assumed. -/
theorem sineWave_frame0_zero_and_periodic (sinFn : ℚ → ℚ) (pi : ℚ)
    (s : Simulation) (hT : s.animType = AnimationType.SINE_WAVE)
    (hA : s.animAmp = 10) (hP : s.animPeriod = 1) (hsin : sinFn 0 = 0) :
    maxXOffset sinFn pi { s with animFrameNumber := 0 } = 0 ∧
    ∀ f : ℕ, maxXOffset sinFn pi { s with animFrameNumber := f + 720 } =
      maxXOffset sinFn pi { s with animFrameNumber := f } := by
  constructor
  · cases hb : s.animBothSides <;>
      simp [maxXOffset, Simulation.stepBoundsAnimation, hT, hA, hP, hb,
        ofDegToRad, hsin]
  · intro f
    cases hb : s.animBothSides <;>
      simp [maxXOffset, Simulation.stepBoundsAnimation, hT, hb, ofDegToRad,
        Nat.add_mod_right]

/-- Witness for the sine-wave claim at a concrete state, with the identity
function standing in for sine (it maps 0 to 0). -/
theorem sineWave_frame0_zero_and_periodic_witness :
    sineDemo.animType = AnimationType.SINE_WAVE ∧ sineDemo.animAmp = 10 ∧
    sineDemo.animPeriod = 1 ∧ (fun q : ℚ => q) 0 = 0 ∧
    (maxXOffset (fun q => q) 0 { sineDemo with animFrameNumber := 0 } = 0 ∧
     ∀ f : ℕ,
       maxXOffset (fun q => q) 0 { sineDemo with animFrameNumber := f + 720 } =
         maxXOffset (fun q => q) 0 { sineDemo with animFrameNumber := f }) :=
  ⟨rfl, rfl, rfl, rfl,
   sineWave_frame0_zero_and_periodic (fun q => q) 0 sineDemo rfl rfl rfl rfl⟩

/-- The max-side contraction limit the COMPRESS branch computes:
origMaxX - (width * 0.66) * 0.5. -/
def compressLimitMaxX (s : Simulation) : ℚ :=
  s.originalBounds.maxV.x -
    (s.originalBounds.maxV.x - s.originalBounds.minV.x) * (33/50) * (1/2)

/-- The min-side contraction limit the COMPRESS branch computes:
origMinX + (width * 0.66) * 0.5. -/
def compressLimitMinX (s : Simulation) : ℚ :=
  s.originalBounds.minV.x +
    (s.originalBounds.maxV.x - s.originalBounds.minV.x) * (33/50) * (1/2)

/-- The COMPRESS behavior of one stepBoundsAnimation call, with the floor
the code actually uses: contraction of the max X-bound by 0.25 exactly
while it sits at or above compressLimitMaxX, no change below it, hence a
monotonically non-increasing max X-bound across every sequence of calls;
mirrored on the min X-bound when both-sides animation is on. -/
def CompressStepSpec (sinFn : ℚ → ℚ) (pi : ℚ) (s : Simulation) : Prop :=
  ((s.stepBoundsAnimation sinFn pi).bounds.maxV.x ≤ s.bounds.maxV.x) ∧
  (compressLimitMaxX s ≤ s.bounds.maxV.x →
    (s.stepBoundsAnimation sinFn pi).bounds.maxV.x = s.bounds.maxV.x - 1/4) ∧
  (s.bounds.maxV.x < compressLimitMaxX s →
    (s.stepBoundsAnimation sinFn pi).bounds.maxV.x = s.bounds.maxV.x) ∧
  (s.animBothSides = true →
    (s.bounds.minV.x ≤ compressLimitMinX s →
      (s.stepBoundsAnimation sinFn pi).bounds.minV.x = s.bounds.minV.x + 1/4) ∧
    (compressLimitMinX s < s.bounds.minV.x →
      (s.stepBoundsAnimation sinFn pi).bounds.minV.x = s.bounds.minV.x)) ∧
  (∀ n : ℕ,
    ((Simulation.stepBoundsAnimation sinFn pi)^[n] s).bounds.maxV.x ≤ s.bounds.maxV.x)

/-- Helper: closed form of the X-bounds written by the COMPRESS branch. -/
theorem compress_step_eq (sinFn : ℚ → ℚ) (pi : ℚ) (s : Simulation)
    (hT : s.animType = AnimationType.COMPRESS) :
    (s.stepBoundsAnimation sinFn pi).bounds.maxV.x =
      (if compressLimitMaxX s ≤ s.bounds.maxV.x
        then s.bounds.maxV.x - 1/4 else s.bounds.maxV.x) ∧
    (s.stepBoundsAnimation sinFn pi).bounds.minV.x =
      (if s.animBothSides = true ∧ s.bounds.minV.x ≤ compressLimitMinX s
        then s.bounds.minV.x + 1/4 else s.bounds.minV.x) := by
  simp only [Simulation.stepBoundsAnimation, hT, compressLimitMaxX, compressLimitMinX]
  split_ifs <;> simp_all

/-- Helper: the COMPRESS branch never increases the max X-bound. -/
theorem compress_step_maxX (sinFn : ℚ → ℚ) (pi : ℚ) (s : Simulation)
    (hT : s.animType = AnimationType.COMPRESS) :
    (s.stepBoundsAnimation sinFn pi).bounds.maxV.x ≤ s.bounds.maxV.x := by
  rw [(compress_step_eq sinFn pi s hT).1]
  split_ifs <;> linarith

/-- Helper: across any number of COMPRESS animation steps the max X-bound
never increases. -/
theorem compress_iterate_maxX (sinFn : ℚ → ℚ) (pi : ℚ) (s : Simulation)
    (hT : s.animType = AnimationType.COMPRESS) (n : ℕ) :
    ((Simulation.stepBoundsAnimation sinFn pi)^[n] s).bounds.maxV.x ≤ s.bounds.maxV.x := by
  induction n generalizing s with
  | zero => simp
  | succ k ih =>
      rw [Function.iterate_succ_apply]
      have hT' : (s.stepBoundsAnimation sinFn pi).animType = AnimationType.COMPRESS := by
        rw [(stepBoundsAnimation_preserves sinFn pi s).2.1, hT]
      exact le_trans (ih _ hT') (compress_step_maxX sinFn pi s hT)

/-- Claim C5 (amended): under COMPRESS the max X-bound is monotonically
non-increasing and contracts by exactly 0.25 per frame while at or above
the floor the code computes from the constant 0.66 (namely
origMaxX - 0.33 * originalWidth), never contracting once below it, with
the min X-bound mirrored when both-sides animation is on. The claim's
floor "at 2/3 of the original width" (origMinX + (2/3) * width) is not the
one the code uses. -/
theorem compress_contracts_toward_floor (sinFn : ℚ → ℚ) (pi : ℚ)
    (s : Simulation) (hT : s.animType = AnimationType.COMPRESS) :
    CompressStepSpec sinFn pi s := by
  obtain ⟨kmax, kmin⟩ := compress_step_eq sinFn pi s hT
  refine ⟨compress_step_maxX sinFn pi s hT, ?_, ?_, ?_,
    fun n => compress_iterate_maxX sinFn pi s hT n⟩
  · intro h; rw [kmax, if_pos h]
  · intro h; rw [kmax, if_neg (not_le.mpr h)]
  · intro hb
    constructor
    · intro h; rw [kmin, if_pos ⟨hb, h⟩]
    · intro h; rw [kmin, if_neg]
      rintro ⟨-, h2⟩
      exact absurd h2 (not_le.mpr h)

/-- A COMPRESS state whose current max X-bound (200.5) lies between the
floor the claim states (2/3 of the original width 300 above the min, i.e.
200) and the floor the code computes (201). -/
def compressDemo : Simulation :=
  { frameNumber := 0, numCells := 8, animBounds := true, animFrameNumber := 0,
    animType := AnimationType.COMPRESS, animPeriod := 1, animAmp := 10,
    animBothSides := false,
    originalBounds := { minV := ⟨0, 0, 0⟩, maxV := ⟨300, 100, 100⟩ },
    bounds := { minV := ⟨0, 0, 0⟩, maxV := ⟨401/2, 100, 100⟩ },
    dt := 1/30, cellsPerAxis := ⟨2, 2, 2⟩, numParticles := 0,
    parameters := { particleRadius := 1 }, particles := [] }

/-- Claim C5 counterexample: at compressDemo the max X-bound (200.5) is at
or above the floor located at 2/3 of the original width, so the claim says
it contracts by 0.25 this frame; the code leaves it unchanged, because its
floor is origMaxX - 0.33 * width = 201. -/
theorem compress_floor_counterexample :
    compressDemo.originalBounds.minV.x +
        (2/3) * (compressDemo.originalBounds.maxV.x - compressDemo.originalBounds.minV.x)
      ≤ compressDemo.bounds.maxV.x ∧
    (compressDemo.stepBoundsAnimation (fun q => q) 0).bounds.maxV.x
      = compressDemo.bounds.maxV.x ∧
    compressDemo.bounds.maxV.x ≠ compressDemo.bounds.maxV.x - 1/4 := by
  refine ⟨by norm_num [compressDemo], ?_, by norm_num [compressDemo]⟩
  simp only [Simulation.stepBoundsAnimation, compressDemo]
  norm_num

/-- Witness for the amended COMPRESS claim at a concrete state. -/
theorem compress_contracts_toward_floor_witness :
    compressDemo.animType = AnimationType.COMPRESS ∧
    CompressStepSpec (fun q => q) 0 compressDemo :=
  ⟨rfl, compress_contracts_toward_floor (fun q => q) 0 compressDemo rfl⟩

/-- A LINEAR_RAMP state with amplitude 10, period 1 and dt = 1/4, so that
tPeriod advances by a quarter of the wave's period per frame. -/
def rampDemo : Simulation :=
  { frameNumber := 0, numCells := 8, animBounds := true, animFrameNumber := 0,
    animType := AnimationType.LINEAR_RAMP, animPeriod := 1, animAmp := 10,
    animBothSides := false,
    originalBounds := { minV := ⟨0, 0, 0⟩, maxV := ⟨300, 100, 100⟩ },
    bounds := { minV := ⟨0, 0, 0⟩, maxV := ⟨300, 100, 100⟩ },
    dt := 1/4, cellsPerAxis := ⟨2, 2, 2⟩, numParticles := 0,
    parameters := { particleRadius := 1 }, particles := [] }

/-- Claim C6 counterexample: the LINEAR_RAMP offset is not a triangle wave.
At rampDemo the offset jumps from 5 at frame 1 (u = 1/4) to -10 at frame 2
(u = 1/2), and as a function of u = (frame/period)*dt the offset (the
sawtooth 2 * amp * (u - round u)) is not continuous at u = 1/2, whereas a
triangle wave of u with amplitude 10 is continuous everywhere. -/
theorem linearRamp_not_triangle_counterexample :
    maxXOffset (fun q => q) 0 { rampDemo with animFrameNumber := 1 } = 5 ∧
    maxXOffset (fun q => q) 0 { rampDemo with animFrameNumber := 2 } = -10 ∧
    ¬ (∀ ε : ℚ, 0 < ε → ∃ δ : ℚ, 0 < δ ∧ ∀ u : ℚ,
        |u - 1/2| < δ → |sawtoothOf 10 u - sawtoothOf 10 (1/2)| < ε) := by
  refine ⟨?_, ?_, ?_⟩
  · simp only [maxXOffset, Simulation.stepBoundsAnimation, rampDemo]
    norm_num
  · simp only [maxXOffset, Simulation.stepBoundsAnimation, rampDemo]
    norm_num
  · intro hcont
    obtain ⟨δ, hδ, hall⟩ := hcont 10 (by norm_num)
    set m : ℚ := min (δ/2) (1/8) with hm
    have hm1 : m ≤ δ/2 := min_le_left _ _
    have hm2 : m ≤ 1/8 := min_le_right _ _
    have hm0 : 0 < m := lt_min (by linarith) (by norm_num)
    have habs : |(1/2 - m : ℚ) - 1/2| < δ := by
      rw [show (1/2 - m : ℚ) - 1/2 = -m by ring, abs_neg, abs_of_pos hm0]
      linarith
    have hu := hall (1/2 - m) habs
    have hfloor : ⌊(1/2 : ℚ) + (1/2 - m)⌋ = 0 := by
      rw [Int.floor_eq_zero_iff]
      constructor <;> simp <;> linarith
    have hval : sawtoothOf 10 (1/2 - m) = 10 - 20 * m := by
      rw [sawtoothOf, hfloor]
      push_cast
      ring
    have h12 : sawtoothOf 10 (1/2 : ℚ) = -10 := by
      norm_num [sawtoothOf]
    rw [hval, h12, show (10 : ℚ) - 20 * m - -10 = 20 - 20 * m by ring,
      abs_of_nonneg (by linarith : (0:ℚ) ≤ 20 - 20 * m)] at hu
    linarith

/-- Claim C6 (amended): under LINEAR_RAMP the offset applied to the max
X-bound equals the sawtooth 2 * amp * (u - round u) of the quantity
u = (frame/period)*dt; as a function of u it is periodic with period 1 and
bounded in magnitude by the amplitude, but it has a jump at half-integers
(it is a sawtooth, not the continuous triangle wave the claim states). -/
theorem linearRamp_offset_sawtooth (sinFn : ℚ → ℚ) (pi : ℚ) (s : Simulation)
    (amp u : ℚ) (hT : s.animType = AnimationType.LINEAR_RAMP) (hamp : 0 ≤ amp) :
    maxXOffset sinFn pi s =
      sawtoothOf s.animAmp (((s.animFrameNumber : ℚ) / s.animPeriod) * s.dt) ∧
    sawtoothOf amp (u + 1) = sawtoothOf amp u ∧
    |sawtoothOf amp u| ≤ amp := by
  refine ⟨?_, ?_, ?_⟩
  · cases hb : s.animBothSides <;>
      simp [maxXOffset, Simulation.stepBoundsAnimation, hT, hb, sawtoothOf,
        sub_sub_cancel]
  · have hsh : ⌊(1/2 : ℚ) + (u + 1)⌋ = ⌊(1/2 : ℚ) + u⌋ + 1 := by
      rw [show (1/2 : ℚ) + (u + 1) = ((1/2 : ℚ) + u) + 1 by ring, Int.floor_add_one]
    rw [sawtoothOf, sawtoothOf, hsh]
    push_cast
    ring
  · have h1 : ((⌊(1/2 : ℚ) + u⌋ : ℤ) : ℚ) ≤ 1/2 + u := Int.floor_le _
    have h2 : (1/2 : ℚ) + u < ((⌊(1/2 : ℚ) + u⌋ : ℤ) : ℚ) + 1 := Int.lt_floor_add_one _
    rw [sawtoothOf, abs_le]
    constructor
    · nlinarith [mul_nonneg hamp
        (show (0:ℚ) ≤ 1 + 2 * (u - ((⌊(1/2 : ℚ) + u⌋ : ℤ) : ℚ)) by linarith)]
    · nlinarith [mul_nonneg hamp
        (show (0:ℚ) ≤ 1 - 2 * (u - ((⌊(1/2 : ℚ) + u⌋ : ℤ) : ℚ)) by linarith)]

/-- Witness for the amended LINEAR_RAMP claim at a concrete state, with
amplitude 10 and the sample point u = 0. -/
theorem linearRamp_offset_sawtooth_witness :
    rampDemo.animType = AnimationType.LINEAR_RAMP ∧ (0 : ℚ) ≤ 10 ∧
    (maxXOffset (fun q => q) 0 rampDemo =
      sawtoothOf rampDemo.animAmp
        (((rampDemo.animFrameNumber : ℚ) / rampDemo.animPeriod) * rampDemo.dt) ∧
     sawtoothOf 10 ((0 : ℚ) + 1) = sawtoothOf 10 0 ∧
     |sawtoothOf 10 (0 : ℚ)| ≤ 10) :=
  ⟨rfl, by norm_num,
   linearRamp_offset_sawtooth (fun q => q) 0 rampDemo 10 0 rfl (by norm_num)⟩

/-- A one-particle state with bounds [0,10] on each axis and particle
radius 1, used for the initialization claim. -/
def initDemo : Simulation :=
  { frameNumber := 0, numCells := 8, animBounds := false, animFrameNumber := 0,
    animType := AnimationType.SINE_WAVE, animPeriod := 1, animAmp := 10,
    animBothSides := false,
    originalBounds := { minV := ⟨0, 0, 0⟩, maxV := ⟨10, 10, 10⟩ },
    bounds := { minV := ⟨0, 0, 0⟩, maxV := ⟨10, 10, 10⟩ },
    dt := 1/30, cellsPerAxis := ⟨2, 2, 2⟩, numParticles := 1,
    parameters := { particleRadius := 1 }, particles := [] }

/-- Claim C4 counterexample: with bounds [0,10] per axis and radius 1, the
unit sample 1 (the top of every per-axis draw) yields a particle whose y
position is 9/4, while a draw from the admissible range spanning the
bounds on the y axis (as `specInitParticle` states the spec's words) would
yield 9: the code caps the y range at 0.25 * (maxY - radius), so most of
the claimed y range is never sampled. -/
theorem initialize_y_range_counterexample :
    ((initDemo.initializeBuffers fun _ => 1).particles.map fun p => p.pos.y) = [9/4] ∧
    (((List.range 1).map
        (specInitParticle (fun _ => 1) initDemo.bounds.minV initDemo.bounds.maxV
          initDemo.parameters.particleRadius)).map fun p => p.pos.y) = [9] ∧
    (9/4 : ℚ) ≠ 9 := by
  refine ⟨?_, ?_, by norm_num⟩
  · simp only [initDemo, Simulation.initializeBuffers]
    rw [show List.range (1 : ℤ).toNat = [0] from rfl]
    simp only [initParticle, ofRandom, List.map_cons, List.map_nil, Function.comp]
    norm_num
  · simp only [initDemo, specInitParticle, ofRandom,
      List.range_succ, List.range_zero, List.nil_append, List.map_cons,
      List.map_nil, Function.comp]
    norm_num

/-- The corrected initialization contract: every initialized particle has
zero velocity and zero predicted position, and its position is drawn per
axis from the ranges the code passes to ofRandom: x and z inset by the
particle radius, y capped at a quarter of (maxY - radius). -/
def InitRangesSpec (rand : ℕ → ℚ) (s : Simulation) : Prop :=
  ∀ p ∈ (s.initializeBuffers rand).particles,
    (s.bounds.minV.x + s.parameters.particleRadius ≤ p.pos.x ∧
      p.pos.x ≤ s.bounds.maxV.x - s.parameters.particleRadius) ∧
    (s.bounds.minV.y + s.parameters.particleRadius ≤ p.pos.y ∧
      p.pos.y ≤ (1/4) * (s.bounds.maxV.y - s.parameters.particleRadius)) ∧
    (s.bounds.minV.z + s.parameters.particleRadius ≤ p.pos.z ∧
      p.pos.z ≤ s.bounds.maxV.z - s.parameters.particleRadius) ∧
    p.vel = Vec3.zero ∧ p.posStar = Vec3.zero

/-- Helper: an ofRandom draw with a unit sample lands in [lo, hi]. -/
theorem ofRandom_mem (t lo hi : ℚ) (h0 : 0 ≤ t) (h1 : t ≤ 1) (hle : lo ≤ hi) :
    lo ≤ ofRandom t lo hi ∧ ofRandom t lo hi ≤ hi := by
  unfold ofRandom
  constructor <;> nlinarith

/-- Claim C4 (amended): at initialization every particle's velocity (and
predicted position) is zero, and the position is drawn uniformly and
independently per axis, but from the code's ranges: x and z within the
bounds inset by the particle radius, and y only up to a quarter of
(maxY - radius), not up to the bound. -/
theorem initialize_positions_in_ranges (rand : ℕ → ℚ) (s : Simulation)
    (hr : ∀ n, 0 ≤ rand n ∧ rand n ≤ 1)
    (hx : s.bounds.minV.x + s.parameters.particleRadius ≤
      s.bounds.maxV.x - s.parameters.particleRadius)
    (hy : s.bounds.minV.y + s.parameters.particleRadius ≤
      (1/4) * (s.bounds.maxV.y - s.parameters.particleRadius))
    (hz : s.bounds.minV.z + s.parameters.particleRadius ≤
      s.bounds.maxV.z - s.parameters.particleRadius) :
    InitRangesSpec rand s := by
  intro p hp
  simp only [Simulation.initializeBuffers, List.mem_map, List.mem_range] at hp
  obtain ⟨i, -, rfl⟩ := hp
  exact ⟨ofRandom_mem _ _ _ (hr _).1 (hr _).2 hx,
         ofRandom_mem _ _ _ (hr _).1 (hr _).2 hy,
         ofRandom_mem _ _ _ (hr _).1 (hr _).2 hz, rfl, rfl⟩

/-- Witness for the amended initialization claim: a concrete state and the
constant unit sample 1/2. -/
theorem initialize_positions_in_ranges_witness :
    (∀ n : ℕ, 0 ≤ (fun _ : ℕ => (1/2 : ℚ)) n ∧ (fun _ : ℕ => (1/2 : ℚ)) n ≤ 1) ∧
    (initDemo.bounds.minV.x + initDemo.parameters.particleRadius ≤
      initDemo.bounds.maxV.x - initDemo.parameters.particleRadius) ∧
    (initDemo.bounds.minV.y + initDemo.parameters.particleRadius ≤
      (1/4) * (initDemo.bounds.maxV.y - initDemo.parameters.particleRadius)) ∧
    (initDemo.bounds.minV.z + initDemo.parameters.particleRadius ≤
      initDemo.bounds.maxV.z - initDemo.parameters.particleRadius) ∧
    InitRangesSpec (fun _ => 1/2) initDemo :=
  ⟨fun _ => by norm_num, by norm_num [initDemo], by norm_num [initDemo],
   by norm_num [initDemo],
   initialize_positions_in_ranges (fun _ => 1/2) initDemo (fun _ => by norm_num)
     (by norm_num [initDemo]) (by norm_num [initDemo]) (by norm_num [initDemo])⟩

end PBF
